import Mathlib

/-!
Shallow embedding of `s3nbmanager.py` (an IPython notebook manager backed by
an S3 bucket) and verification of its natural-language specification.

The S3 bucket is modelled as an association list from keys to entries
(contents plus a last-modified stamp; every write in the model stamps `0`,
since no claim constrains timestamp values).  Transient store faults
(failed puts / failed copies) are modelled by an explicit `Oracle`.
External collaborators (the IPython `current` content-format module,
signing and trust marking) are opaque parameters collected in `Ext`.
Python string operations used by the source are reimplemented faithfully
(`str.strip`, `str.lstrip`, `str.replace`, `str.split`, `os.path.splitext`).
-/

set_option maxHeartbeats 1000000

namespace S3NB

/-- Python `s.strip(c)` on character lists: drop leading and trailing `c`. -/
def pyStripList (c : Char) (l : List Char) : List Char :=
  ((l.dropWhile (fun a => a = c)).reverse.dropWhile (fun a => a = c)).reverse

/-- Python `s.strip(c)` for a single strip character. -/
def pyStrip (s : String) (c : Char) : String :=
  ⟨pyStripList c s.data⟩

/-- Python `s.lstrip(c)` for a single strip character. -/
def pyLStrip (s : String) (c : Char) : String :=
  ⟨s.data.dropWhile (fun a => a = c)⟩

/-- Python `s.endswith(t)`. -/
def pyEndsWith (s t : String) : Bool :=
  t.data.isSuffixOf s.data

/-- Python `s.startswith(t)` restricted to one-character `t`, as used by
`is_hidden` (`parts[-1].startswith('.')`). -/
def pyStartsWithChar (l : List Char) (c : Char) : Bool :=
  match l with
  | [] => false
  | a :: _ => a = c

/-- Python `s.split(c)` for a one-character separator: keeps empty pieces,
`"".split(c) = [""]`. -/
def splitChar (c : Char) : List Char → List (List Char)
  | [] => [[]]
  | a :: rest =>
    let r := splitChar c rest
    if a = c then [] :: r
    else
      match r with
      | [] => [[a]]
      | h :: t => (a :: h) :: t

/-- Does the pattern occur as a contiguous subsequence?  Used to state when
Python `str.replace` degenerates to prefix stripping. -/
def containsSeq (pat : List Char) : List Char → Bool
  | [] => pat.isEmpty
  | a :: rest => pat.isPrefixOf (a :: rest) || containsSeq pat rest

/-- Python `s.replace(old, new)` for non-empty `old`, fuelled so that the
recursion is structural (fuel `≥ s.length` makes the fuel-out branch
unreachable). -/
def pyReplaceFuel (o : Char) (os newl : List Char) : Nat → List Char → List Char
  | 0, l => l
  | _ + 1, [] => []
  | fuel + 1, a :: rest =>
    if (o :: os).isPrefixOf (a :: rest) then
      newl ++ pyReplaceFuel o os newl fuel (rest.drop os.length)
    else
      a :: pyReplaceFuel o os newl fuel rest

/-- Python `s.replace(old, new)`: replaces every occurrence, left to right,
non-overlapping; an empty `old` intersperses `new` around every character. -/
def pyReplace (s old newS : String) : String :=
  match old.data with
  | [] => ⟨newS.data ++ s.data.foldr (fun c acc => c :: (newS.data ++ acc)) []⟩
  | o :: os => ⟨pyReplaceFuel o os newS.data s.data.length s.data⟩

/-- Index of the last occurrence of `c` in `l` (Python `s.rfind(c)` when
present). -/
def pyRFind (l : List Char) (c : Char) : Option Nat :=
  match l.reverse.findIdx? (fun a => a = c) with
  | none => none
  | some i => some (l.length - 1 - i)

/-- Stem of CPython `os.path.splitext`: split at the last dot of the final
path component, except when that component consists only of leading dots up
to it. -/
def pySplitextStem (s : String) : String :=
  let l := s.data
  let sepIdx : Int := match pyRFind l '/' with | none => -1 | some i => (i : Int)
  let dotIdx : Int := match pyRFind l '.' with | none => -1 | some i => (i : Int)
  if sepIdx < dotIdx then
    let filenameStart := (sepIdx + 1).toNat
    let dotN := dotIdx.toNat
    if (List.range (dotN - filenameStart)).any (fun j => l.getD (filenameStart + j) '/' ≠ '.') then
      ⟨l.take dotN⟩
    else s
  else s

/-- One stored S3 object: contents and a last-modified stamp.  The model
stamps every write with `0`; no claim constrains timestamp values. -/
structure Entry where
  contents : String
  mtime : Nat
deriving DecidableEq, Repr

/-- The bucket: an association list from keys to entries (first match wins). -/
abbrev Store := List (String × Entry)

/-- Boto `bucket.get_key(path)`: exact-key lookup. -/
def getKey : Store → String → Option Entry
  | [], _ => none
  | (k, e) :: rest, key => if k = key then some e else getKey rest key

/-- Source `key_exists(bucket, path)`. -/
def key_exists (bucket : Store) (path : String) : Bool :=
  (getKey bucket path).isSome

/-- Boto `bucket.delete_key`: removes the key (succeeds even when absent). -/
def deleteKey (bucket : Store) (k : String) : Store :=
  bucket.filter (fun kv => kv.1 != k)

/-- Overwriting put of an entry. -/
def putKey (bucket : Store) (k : String) (e : Entry) : Store :=
  (k, e) :: deleteKey bucket k

/-- Keys of the bucket with the given prefix, in store order
(boto `bucket.list(path)`). -/
def listPrefixKeys (bucket : Store) (pre : String) : List String :=
  (bucket.map Prod.fst).filter (fun k => pre.data.isPrefixOf k.data)

/-- Error outcomes of the manager's operations. -/
inductive Err where
  /-- `tornado.web.HTTPError(code)`. -/
  | http (code : Nat)
  /-- A boto store fault (failed put / copy, or copy of a missing source). -/
  | s3error
  /-- `current.reads` failed to decode notebook bytes (exception propagates). -/
  | valueError
  /-- Attribute access on `None` (missing key treated as present). -/
  | attrError
  /-- Calling a `str` object: the malformed logging line in `save_notebook`. -/
  | typeError
deriving DecidableEq, Repr

/-- Injectable transient store faults: which puts and which copies fail. -/
structure Oracle where
  putFail : String → Bool
  copyFail : String → Bool

/-- The oracle under which every store operation succeeds. -/
def noFail : Oracle := ⟨fun _ => false, fun _ => false⟩

/-- Outcome projection: the error of a failed computation, if any. -/
def errOf {β : Type} : Except Err β → Option Err
  | .error e => some e
  | .ok _ => none

/-- Outcome projection: did the computation succeed? -/
def isOk {β : Type} : Except Err β → Bool
  | .error _ => false
  | .ok _ => true

/-- Manager configuration (bucket folder, checkpoint dir, notebook
extension, `--script` flag). -/
structure Config where
  notebook_dir : String
  checkpoint_dir : String
  filename_ext : String
  save_script : Bool
deriving DecidableEq, Repr

/-- External collaborators over the opaque notebook content type `α`:
the IPython `current` content-format module and the signing/trust hooks. -/
structure Ext (α : Type) where
  to_notebook_json : α → α
  check_and_sign : α → α
  /-- Covers the conditional clearing of `nb.metadata.name`. -/
  clear_metadata_name : α → α
  mark_trusted_cells : α → α
  writes_json : α → String
  writes_py : α → String
  /-- `current.reads(bytes, 'json')`; `none` models a decode exception. -/
  reads_json : String → Option α

/-- The `model` dict passed to `save_notebook` / `update_notebook`. -/
structure SaveModel (α : Type) where
  content : Option α
  name : Option String
  path : Option String

/-- The notebook model returned by `get_notebook`. -/
structure NbModel (α : Type) where
  name : String
  path : String
  last_modified : Nat
  created : Nat
  type : String
  content : Option α

/-- One checkpoint descriptor, as returned by `get_checkpoint_model`. -/
structure CheckpointInfo where
  id : String
  last_modified : Nat
deriving DecidableEq, Repr

/-- Source `list_keys(bucket, path, extension)`: strips the path, lists keys
with it as a prefix, deletes every occurrence of the path from each key
(Python `str.replace`), left-strips separators, and keeps non-empty names
without an inner separator that end in the extension when one is given. -/
def list_keys (bucket : Store) (path : String) (extension : Option String) : List String :=
  let path := pyStrip path '/'
  (listPrefixKeys bucket path).filterMap (fun kname =>
    let name := pyLStrip (pyReplace kname path "") '/'
    if name ≠ "" ∧
        (match extension with | none => true | some e => pyEndsWith name e) = true ∧
        (pyStripList '/' name.data).any (fun a => a = '/') = false then
      some name
    else none)

/-- Source module-level `is_hidden(bucket, path)`: splits on the separator
and tests whether the last piece starts with a dot (no stripping). -/
def is_hidden (_bucket : Store) (path : String) : Bool :=
  let parts := splitChar '/' path.data
  pyStartsWithChar (parts.getLastD []) '.'

/-- Source `new_key_from_string(bucket, name, contents)`: an overwriting put,
which may fail per the oracle. -/
def new_key_from_string (oracle : Oracle) (bucket : Store) (name contents : String) :
    Except Err Store :=
  if oracle.putFail name then .error .s3error
  else .ok (putKey bucket name ⟨contents, 0⟩)

/-- Boto `bucket.copy_key(dest, bucket, src)`: fails when the source is
absent or per the oracle; otherwise an overwriting put of the source bytes. -/
def copy_key (oracle : Oracle) (bucket : Store) (dest src : String) : Except Err Store :=
  match getKey bucket src with
  | none => .error .s3error
  | some e =>
    if oracle.copyFail dest then .error .s3error
    else .ok (putKey bucket dest ⟨e.contents, 0⟩)

/-- Source `move_key(bucket, new_name, old_name)`: conflict pre-checks, then
copy (from the unstripped old name, as in the source) and delete. -/
def move_key (oracle : Oracle) (bucket : Store) (new_name old_name : String) :
    Except Err Store :=
  let new_name := pyStrip new_name '/'
  if key_exists bucket new_name then .error (.http 409)
  else
    match getKey bucket (pyStrip old_name '/') with
    | none => .error (.http 409)
    | some _ =>
      match copy_key oracle bucket new_name old_name with
      | .error e => .error e
      | .ok st => .ok (deleteKey st (pyStrip old_name '/'))

variable {α : Type}

/-- Source `S3NotebookManager._get_os_path(name, path)`: strips the path and
the notebook dir, prepends the notebook dir to the path, and appends the
stripped name when one is given and non-empty. -/
def _get_os_path (cfg : Config) (name : Option String) (path : String) : String :=
  let out_path := pyStrip path '/'
  let nb_dir := pyStrip cfg.notebook_dir '/'
  let out_path :=
    if out_path = "" then nb_dir
    else if nb_dir ≠ "" then nb_dir ++ "/" ++ out_path
    else out_path
  match name with
  | some n => if n ≠ "" then out_path ++ "/" ++ pyStrip n '/' else out_path
  | none => out_path

/-- Source `get_notebook_names(path)`. -/
def get_notebook_names (cfg : Config) (bucket : Store) (path : String) : List String :=
  list_keys bucket (_get_os_path cfg none path) (some cfg.filename_ext)

/-- Source `notebook_exists(name, path)`. -/
def notebook_exists (cfg : Config) (bucket : Store) (name path : String) : Bool :=
  key_exists bucket (_get_os_path cfg (some name) path)

/-- Source `get_checkpoint_path(checkpoint_id, name, path)`: the per-folder
checkpoint key `{nb_dir}/{path}/{checkpoint_dir}/{stem}-{id}{ext}`. -/
def get_checkpoint_path (cfg : Config) (checkpoint_id name path : String) : String :=
  let basename := pySplitextStem name
  let filename := basename ++ "-" ++ checkpoint_id ++ cfg.filename_ext
  let path1 := _get_os_path cfg (some cfg.checkpoint_dir) path
  path1 ++ "/" ++ filename

/-- Source `get_checkpoint_model(checkpoint_id, name, path)`: reads
`key.last_modified` with no `None` guard; a missing key is the Python
`AttributeError` crash, modelled as `none`. -/
def get_checkpoint_model (cfg : Config) (bucket : Store) (checkpoint_id name path : String) :
    Option CheckpointInfo :=
  match getKey bucket (get_checkpoint_path cfg checkpoint_id name path) with
  | none => none
  | some e => some ⟨checkpoint_id, e.mtime⟩

/-- Source `list_checkpoints(name, path)`: zero or one slot; `none` models a
crash inside `get_checkpoint_model` (provably unreachable). -/
def list_checkpoints (cfg : Config) (bucket : Store) (name path : String) :
    Option (List CheckpointInfo) :=
  let os_path := get_checkpoint_path cfg "checkpoint" name path
  if ¬ key_exists bucket os_path then some []
  else
    match get_checkpoint_model cfg bucket "checkpoint" name path with
    | none => none
    | some info => some [info]

/-- Source `create_checkpoint(name, path)`: lazily creates the marker at the
configured `checkpoint_dir` key (not at the per-path checkpoint directory),
then copies the primary object to the checkpoint key. -/
def create_checkpoint (cfg : Config) (oracle : Oracle) (bucket : Store) (name path : String) :
    Store × Except Err CheckpointInfo :=
  let nb_path := _get_os_path cfg (some name) path
  let checkpoint_id := "checkpoint"
  let cp_path := get_checkpoint_path cfg checkpoint_id name path
  let marker :=
    if ¬ key_exists bucket cfg.checkpoint_dir then
      match new_key_from_string oracle bucket cfg.checkpoint_dir "" with
      | .error e => (bucket, some e)
      | .ok st => (st, none)
    else (bucket, none)
  match marker.2 with
  | some e => (marker.1, .error e)
  | none =>
    match copy_key oracle marker.1 cp_path nb_path with
    | .error e => (marker.1, .error e)
    | .ok st =>
      match get_checkpoint_model cfg st checkpoint_id name path with
      | none => (st, .error .attrError)
      | some info => (st, .ok info)

/-- Source `restore_checkpoint(checkpoint_id, name, path)`: 404 when the
checkpoint key is absent, decode the checkpoint bytes (an undecodable
checkpoint aborts before the copy), then copy checkpoint over primary. -/
def restore_checkpoint (cfg : Config) (ext : Ext α) (oracle : Oracle) (bucket : Store)
    (checkpoint_id name path : String) : Store × Except Err Unit :=
  let nb_path := _get_os_path cfg (some name) path
  let cp_path := get_checkpoint_path cfg checkpoint_id name path
  if ¬ key_exists bucket cp_path then (bucket, .error (.http 404))
  else
    match getKey bucket cp_path with
    | none => (bucket, .error .attrError)
    | some e =>
      match ext.reads_json e.contents with
      | none => (bucket, .error .valueError)
      | some _ =>
        match copy_key oracle bucket nb_path cp_path with
        | .error er => (bucket, .error er)
        | .ok st => (st, .ok ())

/-- Source `delete_checkpoint(checkpoint_id, name, path)`. -/
def delete_checkpoint (cfg : Config) (bucket : Store) (checkpoint_id name path : String) :
    Store × Except Err Unit :=
  let cp_path := get_checkpoint_path cfg checkpoint_id name path
  if ¬ key_exists bucket cp_path then (bucket, .error (.http 404))
  else (deleteKey bucket cp_path, .ok ())

/-- Source `get_notebook(name, path, content)`. -/
def get_notebook (cfg : Config) (ext : Ext α) (bucket : Store) (name path : String)
    (content : Bool) : Except Err (NbModel α) :=
  if ¬ notebook_exists cfg bucket name path then .error (.http 404)
  else
    match getKey bucket (_get_os_path cfg (some name) path) with
    | none => .error .attrError
    | some e =>
      if content then
        match ext.reads_json e.contents with
        | none => .error .valueError
        | some nb => .ok ⟨name, path, e.mtime, e.mtime, "notebook", some (ext.mark_trusted_cells nb)⟩
      else .ok ⟨name, path, e.mtime, e.mtime, "notebook", none⟩

/-- Source `delete_notebook(name, path)`: 404 when the primary is absent;
otherwise delete the checkpoint slot (when present) and then the primary.
Besides the final store and outcome, the model records the ordered list of
keys passed to `delete_key`, so the intermediate states of the sequence can
be stated. -/
def delete_notebook (cfg : Config) (bucket : Store) (name path : String) :
    Store × List String × Except Err Unit :=
  let os_path := _get_os_path cfg (some name) path
  if ¬ key_exists bucket os_path then (bucket, [], .error (.http 404))
  else
    match list_checkpoints cfg bucket name path with
    | none => (bucket, [], .error .attrError)
    | some cps =>
      let step := cps.foldl (fun (acc : Store × List String) cp =>
        let cp_path := get_checkpoint_path cfg cp.id name path
        if key_exists acc.1 cp_path then (deleteKey acc.1 cp_path, acc.2 ++ [cp_path])
        else acc) (bucket, [])
      (deleteKey step.1 os_path, step.2 ++ [os_path], .ok ())

/-- The checkpoint-moving loop of `rename_notebook`: each `move_key` failure
propagates uncaught. -/
def move_cps (cfg : Config) (oracle : Oracle) (old_name old_path new_name new_path : String) :
    List CheckpointInfo → Store → Store × Except Err Unit
  | [], st => (st, .ok ())
  | cp :: rest, st =>
    let old_cp_path := pyStrip (get_checkpoint_path cfg cp.id old_name old_path) '/'
    let new_cp_path := pyStrip (get_checkpoint_path cfg cp.id new_name new_path) '/'
    match move_key oracle st new_cp_path old_cp_path with
    | .error e => (st, .error e)
    | .ok st1 => move_cps cfg oracle old_name old_path new_name new_path rest st1

/-- Source `rename_notebook(old_name, old_path, new_name, new_path)`:
no-op on an identical ref; conflict pre-checks on the new key (and new
script key); primary move with failures re-raised as 500; checkpoint and
script moves afterwards, with failures propagating uncaught. -/
def rename_notebook (cfg : Config) (oracle : Oracle) (bucket : Store)
    (old_name old_path new_name new_path : String) : Store × Except Err Unit :=
  if new_name = old_name ∧ new_path = old_path then (bucket, .ok ())
  else
    let new_os_path := _get_os_path cfg (some new_name) new_path
    let old_os_path := _get_os_path cfg (some old_name) old_path
    if key_exists bucket new_os_path then (bucket, .error (.http 409))
    else
      let old_py_path := pySplitextStem old_os_path ++ ".py"
      let new_py_path := pySplitextStem new_os_path ++ ".py"
      if cfg.save_script ∧ key_exists bucket new_py_path then (bucket, .error (.http 409))
      else
        match move_key oracle bucket new_os_path old_os_path with
        | .error _ => (bucket, .error (.http 500))
        | .ok st1 =>
          match list_checkpoints cfg st1 old_name old_path with
          | none => (st1, .error .attrError)
          | some cps =>
            match move_cps cfg oracle old_name old_path new_name new_path cps st1 with
            | (st2, .error e) => (st2, .error e)
            | (st2, .ok _) =>
              if cfg.save_script then
                match move_key oracle st2 new_py_path old_py_path with
                | .error e => (st2, .error e)
                | .ok st3 => (st3, .ok ())
              else (st2, .ok ())

/-- Source `save_notebook(model, name, path)`: 400 without content; create a
checkpoint when the notebook exists and has none; a changed ref hits the
malformed logging line (a `TypeError`, since the format string is called);
write the primary (failures re-raised as 400); optionally write the
companion script (failures also re-raised as 400, after the primary write
has committed); return the content-less model. -/
def save_notebook (cfg : Config) (ext : Ext α) (oracle : Oracle) (bucket : Store)
    (model : SaveModel α) (name path : String) : Store × Except Err (NbModel α) :=
  let path := pyStrip path '/'
  match model.content with
  | none => (bucket, .error (.http 400))
  | some content =>
    let cpStep : Store × Option Err :=
      if notebook_exists cfg bucket name path then
        match list_checkpoints cfg bucket name path with
        | none => (bucket, some .attrError)
        | some cps =>
          if cps.isEmpty then
            let r := create_checkpoint cfg oracle bucket name path
            match r.2 with
            | .error e => (r.1, some e)
            | .ok _ => (r.1, none)
          else (bucket, none)
      else (bucket, none)
    match cpStep.2 with
    | some e => (cpStep.1, .error e)
    | none =>
      let st := cpStep.1
      let new_path := model.path.getD path
      let new_name := model.name.getD name
      if path ≠ new_path ∨ name ≠ new_name then
        (st, .error .typeError)
      else
        let os_path := _get_os_path cfg (some new_name) new_path
        let nb := ext.clear_metadata_name (ext.check_and_sign (ext.to_notebook_json content))
        match new_key_from_string oracle st os_path (ext.writes_json nb) with
        | .error _ => (st, .error (.http 400))
        | .ok st1 =>
          if cfg.save_script then
            let py_path := pySplitextStem os_path ++ ".py"
            match new_key_from_string oracle st1 py_path (ext.writes_py nb) with
            | .error _ => (st1, .error (.http 400))
            | .ok st2 => (st2, get_notebook cfg ext st2 new_name new_path false)
          else (st1, get_notebook cfg ext st1 new_name new_path false)

/-- Modelled from the spec wording of `listNames` (claim C4): take the keys
that have the (stripped) path as a prefix, strip that prefix, left-strip
separators, discard empty names and names still containing a separator
after trimming, and keep names ending in the requested suffix. -/
def listNames_spec (bucket : Store) (path : String) (extension : Option String) : List String :=
  (listPrefixKeys bucket path).filterMap (fun kname =>
    let name := pyLStrip ⟨kname.data.drop path.data.length⟩ '/'
    if name ≠ "" ∧
        (match extension with | none => true | some e => pyEndsWith name e) = true ∧
        (pyStripList '/' name.data).any (fun a => a = '/') = false then
      some name
    else none)

/-- Modelled from the spec wording of `isHidden` (claim C8): the final path
segment after stripping leading/trailing separators starts with a dot. -/
def is_hidden_spec (path : String) : Bool :=
  pyStartsWithChar ((splitChar '/' (pyStripList '/' path.data)).getLastD []) '.'

/-- Everything up to (excluding) the last separator of a key. -/
def dirname (s : String) : String :=
  ⟨((s.data.reverse.dropWhile (fun a => ¬ a = '/')).drop 1).reverse⟩

/-- Modelled from the spec wording of claim C9: the key of the checkpoint
directory under which the checkpoint key for `(name, path)` is stored,
with its trailing separator (a directory-marker key). -/
def checkpoint_parent_dir_key (cfg : Config) (name path : String) : String :=
  dirname (get_checkpoint_path cfg "checkpoint" name path) ++ "/"

/-- Fixture: the runtime configuration (`DropBox/{uid}` root folder, default
checkpoint dir and extension, no companion-script export). -/
def cfgA : Config := ⟨"DropBox/u/", ".ipynb_checkpoints/", ".ipynb", false⟩

/-- Fixture: same as `cfgA` with companion-script export enabled. -/
def cfgScript : Config := ⟨"DropBox/u/", ".ipynb_checkpoints/", ".ipynb", true⟩

/-- Fixture: a configuration whose root folder strips to the empty string. -/
def cfgRoot : Config := ⟨"/", ".ipynb_checkpoints/", ".ipynb", false⟩

/-- Fixture: external collaborators over `String` contents; bytes equal to
`"BAD"` fail to decode, everything else round-trips. -/
def extS : Ext String :=
  ⟨id, id, id, id, id, id, fun s => if s = "BAD" then none else some s⟩

/-- Fixture: an oracle that fails exactly the put of the given key. -/
def failPutOn (k : String) : Oracle := ⟨fun x => x = k, fun _ => false⟩

/-- Fixture: an oracle that fails exactly the copy onto the given key. -/
def failCopyOn (k : String) : Oracle := ⟨fun _ => false, fun x => x = k⟩

/-- Apply a sequence of key deletions to a store, in order. -/
def applyDeletes (bucket : Store) (ops : List String) : Store :=
  ops.foldl deleteKey bucket

/-- The key-deletion sequence `delete_notebook` is claimed to perform on a
present notebook: the checkpoint key first (when it exists), then the
primary key. -/
def delete_expected_ops (cfg : Config) (bucket : Store) (name path : String) : List String :=
  (if key_exists bucket (get_checkpoint_path cfg "checkpoint" name path) then
    [get_checkpoint_path cfg "checkpoint" name path]
  else []) ++ [_get_os_path cfg (some name) path]

/-- Fixture: a bucket holding one notebook under the configured root. -/
def stNb : Store := [("DropBox/u/p/n.ipynb", ⟨"OLD", 7⟩)]

/-- Fixture: a bucket holding one notebook and its checkpoint copy. -/
def stNbCp : Store :=
  [("DropBox/u/p/n.ipynb", ⟨"OLD", 7⟩),
   ("DropBox/u/p/.ipynb_checkpoints/n-checkpoint.ipynb", ⟨"CP", 3⟩)]

/-- Fixture: a bucket holding one notebook and an undecodable checkpoint. -/
def stNbBadCp : Store :=
  [("DropBox/u/p/n.ipynb", ⟨"OLD", 7⟩),
   ("DropBox/u/p/.ipynb_checkpoints/n-checkpoint.ipynb", ⟨"BAD", 3⟩)]

/-- Fixture: a bucket whose single key repeats its listing path. -/
def stAb : Store := [("ab/ab.ipynb", ⟨"x", 0⟩)]

/-- Fixture: a bucket with one notebook directly under the listing path. -/
def stP : Store := [("q/x.ipynb", ⟨"x", 0⟩)]

/-- Fixture: a bucket holding two distinct notebooks under the root. -/
def stTwo : Store :=
  [("DropBox/u/p/n.ipynb", ⟨"OLD", 7⟩), ("DropBox/u/p/m.ipynb", ⟨"M", 5⟩)]

/-- Fixture: a save payload carrying fresh content and no rename. -/
def mdlNew : SaveModel String := ⟨some "NEW", none, none⟩

/-- True when the listing path does not reoccur in any listed key after its
leading occurrence; under this condition Python `str.replace` in
`list_keys` coincides with prefix stripping on every listed key. -/
def noReoccur (bucket : Store) (path : String) : Bool :=
  (listPrefixKeys bucket path).all
    (fun k => !(containsSeq path.data (k.data.drop path.data.length)))

/-! ## Store lemmas -/

theorem getKey_cons (k : String) (e : Entry) (rest : Store) (key : String) :
    getKey ((k, e) :: rest) key = if k = key then some e else getKey rest key := rfl

theorem getKey_deleteKey (st : Store) (k key : String) :
    getKey (deleteKey st k) key = if key = k then none else getKey st key := by
  induction st with
  | nil =>
    simp only [deleteKey, List.filter_nil, getKey]
    split <;> rfl
  | cons kv rest ih =>
    obtain ⟨a, e⟩ := kv
    by_cases hak : a = k
    · subst hak
      have h1 : deleteKey ((a, e) :: rest) a = deleteKey rest a := by
        simp [deleteKey, List.filter_cons]
      rw [h1, ih]
      by_cases hk : key = a
      · simp [hk]
      · simp [hk, getKey_cons, Ne.symm hk]
    · have h1 : deleteKey ((a, e) :: rest) k = (a, e) :: deleteKey rest k := by
        simp [deleteKey, List.filter_cons, hak]
      rw [h1, getKey_cons, getKey_cons, ih]
      by_cases hka : a = key
      · subst hka
        simp [hak]
      · simp [hka]

theorem getKey_putKey (st : Store) (k : String) (e : Entry) (key : String) :
    getKey (putKey st k e) key = if key = k then some e else getKey st key := by
  simp only [putKey, getKey_cons, getKey_deleteKey]
  by_cases h : key = k
  · simp [h]
  · simp [h, Ne.symm h]

theorem key_exists_putKey (st : Store) (k : String) (e : Entry) (key : String) :
    key_exists (putKey st k e) key = if key = k then true else key_exists st key := by
  simp only [key_exists, getKey_putKey]
  split <;> rfl

theorem key_exists_deleteKey (st : Store) (k key : String) :
    key_exists (deleteKey st k) key = if key = k then false else key_exists st key := by
  simp only [key_exists, getKey_deleteKey]
  split <;> rfl

theorem key_exists_eq_isSome_getKey (st : Store) (k : String) :
    key_exists st k = (getKey st k).isSome := rfl

/-! ## Split / strip lemmas -/

theorem splitChar_ne_nil (c : Char) (l : List Char) : splitChar c l ≠ [] := by
  induction l with
  | nil => simp [splitChar]
  | cons a rest ih =>
    simp only [splitChar]
    by_cases h : a = c
    · simp [h]
    · simp only [h, if_false]
      cases hr : splitChar c rest with
      | nil => simp
      | cons hd tl => simp

theorem getLastD_cons_of_ne_nil {γ : Type} (a : γ) (l : List γ) (d d2 : γ) (h : l ≠ []) :
    (a :: l).getLastD d = l.getLastD d2 := by
  cases l with
  | nil => exact absurd rfl h
  | cons b t => simp only [List.getLastD_cons]

theorem splitChar_length (c : Char) (l : List Char) :
    (splitChar c l).length = l.count c + 1 := by
  induction l with
  | nil => simp [splitChar]
  | cons a rest ih =>
    simp only [splitChar]
    by_cases h : a = c
    · subst h
      simp [List.count_cons, ih]
    · cases hr : splitChar c rest with
      | nil => exact absurd hr (splitChar_ne_nil c rest)
      | cons hd tl =>
        rw [hr] at ih
        simp only [h, if_false, hr]
        simp only [List.length_cons] at ih ⊢
        have hcount : (a :: rest).count c = rest.count c := by
          simp [List.count_cons, h]
        omega

theorem splitChar_append_sep_getLastD (c : Char) (l : List Char) :
    (splitChar c (l ++ [c])).getLastD [] = [] := by
  induction l with
  | nil => simp [splitChar]
  | cons a rest ih =>
    have hne := splitChar_ne_nil c (rest ++ [c])
    have hlen := splitChar_length c (rest ++ [c])
    have hcons : (a :: rest) ++ [c] = a :: (rest ++ [c]) := rfl
    rw [hcons]
    simp only [splitChar]
    by_cases h : a = c
    · simp only [h, if_true]
      rw [getLastD_cons_of_ne_nil _ _ _ [] hne]
      exact ih
    · simp only [h, if_false]
      cases hr : splitChar c (rest ++ [c]) with
      | nil => exact absurd hr hne
      | cons hd tl =>
        have htl : tl ≠ [] := by
          rw [hr] at hlen
          have hcge : 1 ≤ (rest ++ [c]).count c := by
            have : [c].count c = 1 := by simp
            simp [List.count_append]
          simp only [List.length_cons] at hlen
          intro he
          rw [he] at hlen
          simp at hlen
        rw [getLastD_cons_of_ne_nil _ _ _ [] htl]
        rw [hr] at ih
        rwa [getLastD_cons_of_ne_nil _ _ _ [] htl] at ih

theorem splitChar_dropWhile_getLastD (c : Char) (l : List Char) :
    (splitChar c (l.dropWhile (fun a => a = c))).getLastD [] =
      (splitChar c l).getLastD [] := by
  induction l with
  | nil => rfl
  | cons a rest ih =>
    by_cases h : a = c
    · rw [List.dropWhile_cons_of_pos (by simp [h])]
      rw [ih]
      simp only [splitChar, h, if_true]
      rw [getLastD_cons_of_ne_nil _ _ _ [] (splitChar_ne_nil c rest)]
    · rw [List.dropWhile_cons_of_neg (by simp [h])]

theorem getLast?_dropWhile (p : Char → Bool) (l : List Char) (h : l.dropWhile p ≠ []) :
    (l.dropWhile p).getLast? = l.getLast? := by
  induction l with
  | nil => simp at h
  | cons a rest ih =>
    by_cases hp : p a
    · rw [List.dropWhile_cons_of_pos hp] at h ⊢
      rw [ih h]
      have hrest : rest ≠ [] := by
        intro he
        rw [he] at h
        simp at h
      cases rest with
      | nil => exact absurd rfl hrest
      | cons b t => simp [List.getLast?_cons_cons]
    · rw [List.dropWhile_cons_of_neg hp]

theorem pyStripList_of_not_endsep (c : Char) (l : List Char) (h : l.getLast? ≠ some c) :
    pyStripList c l = l.dropWhile (fun a => a = c) := by
  unfold pyStripList
  by_cases hnil : l.dropWhile (fun a => a = c) = []
  · rw [hnil]
    rfl
  · have hlast : (l.dropWhile (fun a => a = c)).getLast? = l.getLast? :=
      getLast?_dropWhile _ l hnil
    have hself : (l.dropWhile (fun a => a = c)).reverse.dropWhile (fun a => a = c) =
        (l.dropWhile (fun a => a = c)).reverse := by
      cases hr : (l.dropWhile (fun a => a = c)).reverse with
      | nil => rfl
      | cons b t =>
        have hb : ¬ (b = c) := by
          have hh : (l.dropWhile (fun a => a = c)).reverse.head? = some b := by
            rw [hr]
            rfl
          rw [List.head?_reverse, hlast] at hh
          intro hbc
          rw [hbc] at hh
          exact h hh
        rw [List.dropWhile_cons_of_neg (by simp [hb])]
    rw [hself, List.reverse_reverse]

theorem splitChar_pyStripList_getLastD (c : Char) (l : List Char) (h : l.getLast? ≠ some c) :
    (splitChar c (pyStripList c l)).getLastD [] = (splitChar c l).getLastD [] := by
  rw [pyStripList_of_not_endsep c l h, splitChar_dropWhile_getLastD]

/-! ## Claim C10 -/

/-- C10: `get_checkpoint_model` is well-defined exactly when the checkpoint
key exists (a missing key is the unguarded `None.last_modified` crash,
modelled as `none`), and `list_checkpoints` — the public caller — never
crashes because it checks key existence before calling it. -/
theorem C10_checkpoint_model_precondition (cfg : Config) (st : Store)
    (checkpoint_id name path : String) :
    (get_checkpoint_model cfg st checkpoint_id name path).isSome =
      key_exists st (get_checkpoint_path cfg checkpoint_id name path)
    ∧ (list_checkpoints cfg st name path).isSome = true := by
  constructor
  · unfold get_checkpoint_model key_exists
    cases getKey st (get_checkpoint_path cfg checkpoint_id name path) <;> rfl
  · unfold list_checkpoints get_checkpoint_model
    cases hg : getKey st (get_checkpoint_path cfg "checkpoint" name path) with
    | none => simp [key_exists, hg]
    | some e => simp [key_exists, hg]

/-! ## Claim C8 -/

/-- C8 (counterexample): a directory key with a trailing separator whose
directory name starts with a dot is NOT hidden according to the code,
though the claim says it is. -/
theorem C8_counterexample :
    is_hidden [] ".hidden/" = false ∧ is_hidden_spec ".hidden/" = true := by
  exact ⟨by rfl, by rfl⟩

/-- C8 (amended): `is_hidden` tests whether the substring after the LAST
separator starts with a dot, without stripping separators; hence a key with
a trailing separator is never hidden (its final split piece is empty), and
on keys without a trailing separator it agrees with the spec's description
(final segment after stripping leading/trailing separators). -/
theorem C8_is_hidden_last_segment (st : Store) (s path : String) :
    is_hidden st (s ++ "/") = false
    ∧ (path.data.getLast? ≠ some '/' → is_hidden st path = is_hidden_spec path) := by
  constructor
  · have hdata : (s ++ "/").data = s.data ++ ['/'] := by
      cases s with
      | mk l => rfl
    show pyStartsWithChar ((splitChar '/' (s ++ "/").data).getLastD []) '.' = false
    rw [hdata, splitChar_append_sep_getLastD]
    rfl
  · intro h
    show pyStartsWithChar ((splitChar '/' path.data).getLastD []) '.' =
      pyStartsWithChar ((splitChar '/' (pyStripList '/' path.data)).getLastD []) '.'
    rw [splitChar_pyStripList_getLastD '/' path.data h]

/-- C8 witness: the amended equivalence evaluated on a concrete hidden file
key without a trailing separator. -/
theorem C8_is_hidden_last_segment_witness :
    ("a/.h" : String).data.getLast? ≠ some '/' ∧ is_hidden [] "a/.h" = is_hidden_spec "a/.h" :=
  ⟨by decide, (C8_is_hidden_last_segment [] "x" "a/.h").2 (by decide)⟩

/-! ## Claim C3 -/

theorem get_os_path_none (cfg : Config) (r : String) (h : pyStrip r '/' = r) :
    _get_os_path cfg none r =
      if r = "" then pyStrip cfg.notebook_dir '/'
      else if pyStrip cfg.notebook_dir '/' ≠ "" then pyStrip cfg.notebook_dir '/' ++ "/" ++ r
      else r := by
  unfold _get_os_path
  rw [h]

/-- C3 (counterexample): with the runtime configuration (non-empty root
folder), feeding `resolve`'s output back in as the path does not return the
same key; and two distinct logical (path, name) addresses resolve to the
same storage key. -/
theorem C3_counterexample :
    (_get_os_path cfgA none (_get_os_path cfgA (some "n.ipynb") "p") ≠
      _get_os_path cfgA (some "n.ipynb") "p")
    ∧ ((("a/b", "c.ipynb") : String × String) ≠ ("a", "b/c.ipynb")
       ∧ _get_os_path cfgA (some "c.ipynb") "a/b" = _get_os_path cfgA (some "b/c.ipynb") "a") := by
  exact ⟨by decide, by decide, by decide⟩

/-- C3 (amended): the resolver is not idempotent in the claimed sense when
the configured root prefix strips to a non-empty string — feeding a
non-empty, already-stripped resolved key back in as the path (with no name)
prepends the stripped root prefix again.  Idempotence holds exactly when
the root prefix strips to empty.  (Injectivity fails as well, witnessed by
the counterexample: a name containing a separator collides with a longer
path.) -/
theorem C3_resolve_prefixing (cfg : Config) (name path : String) :
    (pyStrip cfg.notebook_dir '/' ≠ "" →
      pyStrip (_get_os_path cfg (some name) path) '/' = _get_os_path cfg (some name) path →
      _get_os_path cfg (some name) path ≠ "" →
      _get_os_path cfg none (_get_os_path cfg (some name) path) =
        pyStrip cfg.notebook_dir '/' ++ "/" ++ _get_os_path cfg (some name) path)
    ∧ (pyStrip cfg.notebook_dir '/' = "" →
      pyStrip (_get_os_path cfg (some name) path) '/' = _get_os_path cfg (some name) path →
      _get_os_path cfg none (_get_os_path cfg (some name) path) =
        _get_os_path cfg (some name) path) := by
  constructor
  · intro hnb hstr hne
    rw [get_os_path_none cfg _ hstr, if_neg hne, if_pos hnb]
  · intro hnb hstr
    rw [get_os_path_none cfg _ hstr, hnb]
    by_cases h : _get_os_path cfg (some name) path = ""
    · simp [h]
    · simp [h]

/-- C3 witness: the amended prepend equation at the runtime configuration,
and idempotence at a configuration whose root strips to empty. -/
theorem C3_resolve_prefixing_witness :
    (pyStrip cfgA.notebook_dir '/' ≠ "" ∧
      _get_os_path cfgA none (_get_os_path cfgA (some "n.ipynb") "p") =
        pyStrip cfgA.notebook_dir '/' ++ "/" ++ _get_os_path cfgA (some "n.ipynb") "p")
    ∧ (pyStrip cfgRoot.notebook_dir '/' = "" ∧
      _get_os_path cfgRoot none (_get_os_path cfgRoot (some "n.ipynb") "p") =
        _get_os_path cfgRoot (some "n.ipynb") "p") :=
  ⟨⟨by decide, (C3_resolve_prefixing cfgA "n.ipynb" "p").1 (by decide) (by decide) (by decide)⟩,
   ⟨by decide, (C3_resolve_prefixing cfgRoot "n.ipynb" "p").2 (by decide) (by decide)⟩⟩

/-! ## Claim C4 -/

theorem containsSeq_nil_true (l : List Char) : containsSeq [] l = true := by
  cases l <;> simp [containsSeq, List.isPrefixOf]

theorem pyReplaceFuel_of_not_contains (o : Char) (os newl : List Char) (fuel : Nat)
    (l : List Char) (hc : containsSeq (o :: os) l = false) (hf : l.length ≤ fuel) :
    pyReplaceFuel o os newl fuel l = l := by
  induction fuel generalizing l with
  | zero =>
    cases l with
    | nil => rfl
    | cons a rest => simp at hf
  | succ fuel ih =>
    cases l with
    | nil => rfl
    | cons a rest =>
      simp only [containsSeq, Bool.or_eq_false_iff] at hc
      obtain ⟨h1, h2⟩ := hc
      have hnp : ¬ ((o :: os).isPrefixOf (a :: rest) = true) := by simp [h1]
      simp only [pyReplaceFuel, if_neg hnp]
      rw [ih rest h2 (by simp only [List.length_cons] at hf; omega)]

theorem pyReplace_prefix_once (o : Char) (os rest : List Char)
    (hc : containsSeq (o :: os) rest = false) :
    pyReplace ⟨(o :: os) ++ rest⟩ ⟨o :: os⟩ "" = ⟨rest⟩ := by
  have hp : (o :: os).isPrefixOf (o :: (os ++ rest)) = true := by
    rw [List.isPrefixOf_iff_prefix]
    exact ⟨rest, by simp⟩
  have hlen : ((o :: os) ++ rest).length = (os ++ rest).length + 1 := by simp
  show String.mk (pyReplaceFuel o os [] ((o :: os) ++ rest).length ((o :: os) ++ rest)) = ⟨rest⟩
  have hcons : (o :: os) ++ rest = o :: (os ++ rest) := rfl
  rw [hlen, hcons]
  simp only [pyReplaceFuel, if_pos hp]
  rw [List.nil_append, List.drop_left]
  rw [pyReplaceFuel_of_not_contains o os [] _ rest hc (by simp [Nat.le_add_left])]

theorem filterMap_congr_mem {γ δ : Type} (f g : γ → Option δ) (l : List γ)
    (h : ∀ a ∈ l, f a = g a) : l.filterMap f = l.filterMap g := by
  induction l with
  | nil => rfl
  | cons a rest ih =>
    simp only [List.filterMap_cons]
    rw [h a (by simp)]
    have ih2 := ih (fun b hb => h b (by simp [hb]))
    cases g a <;> simp [ih2]

/-- C4 (counterexample): on a key in which the listing path reoccurs after
the prefix, `list_keys` deletes every occurrence of the path (Python
`str.replace`), so the result differs from the spec's prefix stripping. -/
theorem C4_counterexample :
    list_keys stAb "ab" (some ".ipynb") = [".ipynb"]
    ∧ listNames_spec stAb "ab" (some ".ipynb") = ["ab.ipynb"]
    ∧ list_keys stAb "ab" (some ".ipynb") ≠ listNames_spec stAb "ab" (some ".ipynb") := by
  exact ⟨by decide, by decide, by decide⟩

/-- C4 (amended): `listNames(path)` deletes every occurrence of the stripped
path from each listed key (Python `str.replace`) before trimming and
filtering, not just the leading prefix; when the stripped path does not
reoccur in any listed key after its leading occurrence, this coincides with
the spec's description (prefix stripping, discarding empty names and names
still containing a separator after trimming, suffix filtering). -/
theorem C4_list_keys_prefix_strip (bucket : Store) (path : String) (extension : Option String)
    (hs : pyStrip path '/' = path) (hk : noReoccur bucket path = true) :
    list_keys bucket path extension = listNames_spec bucket path extension := by
  unfold noReoccur at hk
  rw [List.all_eq_true] at hk
  unfold list_keys listNames_spec
  rw [hs]
  apply filterMap_congr_mem
  intro k hkmem
  have hpre : path.data.isPrefixOf k.data = true := (List.mem_filter.mp hkmem).2
  rw [List.isPrefixOf_iff_prefix] at hpre
  obtain ⟨t, ht⟩ := hpre
  have hcont : containsSeq path.data (k.data.drop path.data.length) = false := by
    have := hk k hkmem
    simpa using this
  have hdrop : k.data.drop path.data.length = t := by
    rw [← ht, List.drop_left]
  have hrep : pyReplace k path "" = ⟨t⟩ := by
    cases hpd : path.data with
    | nil =>
      rw [hpd] at hcont
      rw [containsSeq_nil_true] at hcont
      exact absurd hcont (by simp)
    | cons o os =>
      have hc : containsSeq (o :: os) t = false := by
        rw [hdrop, hpd] at hcont
        exact hcont
      have e1 : k = String.mk ((o :: os) ++ t) := by
        cases k with
        | mk kd =>
          have : kd = (o :: os) ++ t := by
            have hkd : path.data ++ t = kd := ht
            rw [hpd] at hkd
            exact hkd.symm
          rw [this]
      have e2 : path = String.mk (o :: os) := by
        cases path with
        | mk pd =>
          have : pd = o :: os := hpd
          rw [this]
      rw [e1, e2]
      exact pyReplace_prefix_once o os t hc
  rw [hrep, hdrop]

/-- C4 witness: the amended equivalence evaluated on a store whose listed
key contains the path only as its leading prefix. -/
theorem C4_list_keys_prefix_strip_witness :
    (pyStrip "q" '/' = "q" ∧ noReoccur stP "q" = true)
    ∧ list_keys stP "q" (some ".ipynb") = listNames_spec stP "q" (some ".ipynb") :=
  ⟨⟨by decide, by decide⟩, C4_list_keys_prefix_strip stP "q" (some ".ipynb") (by decide) (by decide)⟩

/-! ## Claim C2 -/

/-- C2: `restore_checkpoint` fails with 404 when the checkpoint key is
absent, leaving the store unchanged; when the key exists but its bytes fail
to decode under the content format, it fails before any copy and the store
— in particular the primary document — is unchanged; only when the bytes
decode successfully is the checkpoint copied over the primary key. -/
theorem C2_restore_checkpoint_guards (cfg : Config) (ext : Ext α) (oracle : Oracle)
    (st : Store) (checkpoint_id name path : String) :
    (key_exists st (get_checkpoint_path cfg checkpoint_id name path) = false →
      restore_checkpoint cfg ext oracle st checkpoint_id name path = (st, .error (.http 404)))
    ∧ (∀ e, getKey st (get_checkpoint_path cfg checkpoint_id name path) = some e →
        ext.reads_json e.contents = none →
        restore_checkpoint cfg ext oracle st checkpoint_id name path = (st, .error .valueError))
    ∧ (∀ e nb, getKey st (get_checkpoint_path cfg checkpoint_id name path) = some e →
        ext.reads_json e.contents = some nb →
        oracle.copyFail (_get_os_path cfg (some name) path) = false →
        restore_checkpoint cfg ext oracle st checkpoint_id name path =
          (putKey st (_get_os_path cfg (some name) path) ⟨e.contents, 0⟩, .ok ())) := by
  refine ⟨?_, ?_, ?_⟩
  · intro h
    unfold restore_checkpoint
    simp [h]
  · intro e he hr
    unfold restore_checkpoint
    simp [key_exists, he, hr]
  · intro e nb he hr hcf
    unfold restore_checkpoint copy_key
    simp [key_exists, he, hr, hcf]

/-- C2 witness: the three guards evaluated on concrete stores — no
checkpoint, an undecodable checkpoint, and a decodable one. -/
theorem C2_restore_checkpoint_guards_witness :
    (key_exists stNb (get_checkpoint_path cfgA "checkpoint" "n.ipynb" "p") = false
     ∧ restore_checkpoint cfgA extS noFail stNb "checkpoint" "n.ipynb" "p" =
        (stNb, .error (.http 404)))
    ∧ restore_checkpoint cfgA extS noFail stNbBadCp "checkpoint" "n.ipynb" "p" =
        (stNbBadCp, .error .valueError)
    ∧ restore_checkpoint cfgA extS noFail stNbCp "checkpoint" "n.ipynb" "p" =
        (putKey stNbCp (_get_os_path cfgA (some "n.ipynb") "p") ⟨"CP", 0⟩, .ok ()) :=
  ⟨⟨by decide,
    (C2_restore_checkpoint_guards cfgA extS noFail stNb "checkpoint" "n.ipynb" "p").1 (by decide)⟩,
   (C2_restore_checkpoint_guards cfgA extS noFail stNbBadCp "checkpoint" "n.ipynb" "p").2.1
     ⟨"BAD", 3⟩ (by decide) (by decide),
   (C2_restore_checkpoint_guards cfgA extS noFail stNbCp "checkpoint" "n.ipynb" "p").2.2
     ⟨"CP", 3⟩ "CP" (by decide) (by decide) (by decide)⟩

/-! ## Claim C6 -/

/-- C6: `rename_notebook` is a no-op (no store change, success) when the old
and new (name, path) pairs coincide; when they differ and an object already
exists at the resolved new key, it fails with Conflict 409 before any
mutation — the returned store is the input store, so the object at the old
key and its checkpoint are unchanged. -/
theorem C6_rename_noop_conflict (cfg : Config) (oracle : Oracle) (st : Store)
    (old_name old_path new_name new_path : String) :
    (new_name = old_name ∧ new_path = old_path →
      rename_notebook cfg oracle st old_name old_path new_name new_path = (st, .ok ()))
    ∧ (¬ (new_name = old_name ∧ new_path = old_path) →
      key_exists st (_get_os_path cfg (some new_name) new_path) = true →
      rename_notebook cfg oracle st old_name old_path new_name new_path =
        (st, .error (.http 409))) := by
  constructor
  · intro h
    unfold rename_notebook
    simp [h]
  · intro h hex
    unfold rename_notebook
    simp [h, hex]

/-- C6 witness: a same-ref rename on a concrete store, and a rename onto an
occupied key. -/
theorem C6_rename_noop_conflict_witness :
    rename_notebook cfgA noFail stNb "n.ipynb" "p" "n.ipynb" "p" = (stNb, .ok ())
    ∧ (¬ (("m.ipynb" : String) = "n.ipynb" ∧ ("p" : String) = "p")
       ∧ key_exists stTwo (_get_os_path cfgA (some "m.ipynb") "p") = true
       ∧ rename_notebook cfgA noFail stTwo "n.ipynb" "p" "m.ipynb" "p" =
          (stTwo, .error (.http 409))) :=
  ⟨(C6_rename_noop_conflict cfgA noFail stNb "n.ipynb" "p" "n.ipynb" "p").1 ⟨rfl, rfl⟩,
   by decide, by decide,
   (C6_rename_noop_conflict cfgA noFail stTwo "n.ipynb" "p" "m.ipynb" "p").2
     (by decide) (by decide)⟩

/-! ## Claim C7 -/

/-- C7: `delete_notebook` fails with 404 and leaves the store unchanged when
no object exists at the resolved key; otherwise it deletes the existing
checkpoint key strictly before the primary key (the recorded deletion
sequence is checkpoint-then-primary), and at no intermediate state of that
sequence does the checkpoint key exist while the primary has already been
deleted. -/
theorem C7_delete_order (cfg : Config) (st : Store) (name path : String)
    (hne : get_checkpoint_path cfg "checkpoint" name path ≠ _get_os_path cfg (some name) path) :
    (key_exists st (_get_os_path cfg (some name) path) = false →
      delete_notebook cfg st name path = (st, [], .error (.http 404)))
    ∧ (key_exists st (_get_os_path cfg (some name) path) = true →
      delete_notebook cfg st name path =
        (applyDeletes st (delete_expected_ops cfg st name path),
         delete_expected_ops cfg st name path, .ok ())
      ∧ ∀ i, i ≤ (delete_expected_ops cfg st name path).length →
          ¬ (key_exists (applyDeletes st ((delete_expected_ops cfg st name path).take i))
               (get_checkpoint_path cfg "checkpoint" name path) = true
             ∧ key_exists (applyDeletes st ((delete_expected_ops cfg st name path).take i))
               (_get_os_path cfg (some name) path) = false)) := by
  constructor
  · intro h
    unfold delete_notebook
    simp [h]
  · intro h
    by_cases hcpe : key_exists st (get_checkpoint_path cfg "checkpoint" name path)
    · obtain ⟨e, he⟩ : ∃ e, getKey st (get_checkpoint_path cfg "checkpoint" name path) = some e := by
        rw [key_exists_eq_isSome_getKey] at hcpe
        cases hg : getKey st (get_checkpoint_path cfg "checkpoint" name path) with
        | none => rw [hg] at hcpe; simp at hcpe
        | some e => exact ⟨e, rfl⟩
      have hlc : list_checkpoints cfg st name path = some [⟨"checkpoint", e.mtime⟩] := by
        unfold list_checkpoints get_checkpoint_model
        simp [hcpe, he]
      have hops : delete_expected_ops cfg st name path =
          [get_checkpoint_path cfg "checkpoint" name path, _get_os_path cfg (some name) path] := by
        unfold delete_expected_ops
        simp [hcpe]
      constructor
      · unfold delete_notebook
        rw [hlc, hops]
        simp [h, hcpe, applyDeletes]
      · intro i hi
        rw [hops] at hi ⊢
        simp only [List.length_cons, List.length_nil] at hi
        interval_cases i
        · simp [applyDeletes, h]
        · simp [applyDeletes, key_exists_deleteKey, Ne.symm hne, h]
        · simp [applyDeletes, key_exists_deleteKey, Ne.symm hne, hne]
    · have hlc : list_checkpoints cfg st name path = some [] := by
        unfold list_checkpoints
        simp [hcpe]
      have hops : delete_expected_ops cfg st name path =
          [_get_os_path cfg (some name) path] := by
        unfold delete_expected_ops
        simp [hcpe]
      constructor
      · unfold delete_notebook
        rw [hlc, hops]
        simp [h, applyDeletes]
      · intro i hi
        rw [hops] at hi ⊢
        simp only [List.length_cons, List.length_nil] at hi
        interval_cases i
        · simp [applyDeletes, h]
        · simp only [List.take, applyDeletes, List.foldl]
          rw [key_exists_deleteKey]
          simp [hne, hcpe]

/-- C7 witness: deletion of a concrete notebook with a checkpoint — the
recorded sequence is checkpoint first, then primary. -/
theorem C7_delete_order_witness :
    (get_checkpoint_path cfgA "checkpoint" "n.ipynb" "p" ≠ _get_os_path cfgA (some "n.ipynb") "p")
    ∧ delete_notebook cfgA stNbCp "n.ipynb" "p" =
        (applyDeletes stNbCp (delete_expected_ops cfgA stNbCp "n.ipynb" "p"),
         delete_expected_ops cfgA stNbCp "n.ipynb" "p", .ok ()) :=
  ⟨by decide,
   ((C7_delete_order cfgA stNbCp "n.ipynb" "p" (by decide)).2 (by decide)).1⟩

/-! ## Claim C9 -/

theorem create_checkpoint_success (cfg : Config) (oracle : Oracle) (st : Store)
    (name path : String) (e : Entry)
    (hsrc : getKey st (_get_os_path cfg (some name) path) = some e)
    (hput : oracle.putFail cfg.checkpoint_dir = false)
    (hcopy : oracle.copyFail (get_checkpoint_path cfg "checkpoint" name path) = false)
    (hnd : cfg.checkpoint_dir ≠ _get_os_path cfg (some name) path) :
    create_checkpoint cfg oracle st name path =
      (putKey (if key_exists st cfg.checkpoint_dir then st
          else putKey st cfg.checkpoint_dir ⟨"", 0⟩)
        (get_checkpoint_path cfg "checkpoint" name path) ⟨e.contents, 0⟩,
       .ok ⟨"checkpoint", 0⟩) := by
  unfold create_checkpoint copy_key new_key_from_string get_checkpoint_model
  by_cases hdir : key_exists st cfg.checkpoint_dir
  · simp [hdir, hsrc, hcopy, getKey_putKey]
  · simp [hdir, hput, hsrc, hcopy, getKey_putKey, Ne.symm hnd]

/-- C9 (counterexample): after a successful `create_checkpoint` on a
concrete notebook, the directory-marker key for the checkpoint directory
under which the checkpoint key is stored does NOT exist; the lazily created
marker is the fixed root-relative `checkpoint_dir` key instead. -/
theorem C9_counterexample :
    (create_checkpoint cfgA noFail stNb "n.ipynb" "p").2 = .ok ⟨"checkpoint", 0⟩
    ∧ key_exists (create_checkpoint cfgA noFail stNb "n.ipynb" "p").1
        (checkpoint_parent_dir_key cfgA "n.ipynb" "p") = false
    ∧ key_exists (create_checkpoint cfgA noFail stNb "n.ipynb" "p").1 cfgA.checkpoint_dir = true := by
  exact ⟨by rfl, by decide, by decide⟩

/-- C9 (amended): `create_checkpoint(ref)` ensures, lazily on first use, a
directory-marker object at the fixed configured `checkpoint_dir` key
(default `.ipynb_checkpoints/`, resolved at bucket root) — not at the
per-path checkpoint directory under which the checkpoint key for `ref` is
stored — and then copies the primary object's bytes to the fixed checkpoint
key derived from `ref`'s path. -/
theorem C9_create_checkpoint_marker (cfg : Config) (oracle : Oracle) (st : Store)
    (name path : String) (e : Entry)
    (hsrc : getKey st (_get_os_path cfg (some name) path) = some e)
    (hput : oracle.putFail cfg.checkpoint_dir = false)
    (hcopy : oracle.copyFail (get_checkpoint_path cfg "checkpoint" name path) = false)
    (hnd : cfg.checkpoint_dir ≠ _get_os_path cfg (some name) path) :
    (create_checkpoint cfg oracle st name path).2 = .ok ⟨"checkpoint", 0⟩
    ∧ getKey (create_checkpoint cfg oracle st name path).1
        (get_checkpoint_path cfg "checkpoint" name path) = some ⟨e.contents, 0⟩
    ∧ key_exists (create_checkpoint cfg oracle st name path).1 cfg.checkpoint_dir = true := by
  rw [create_checkpoint_success cfg oracle st name path e hsrc hput hcopy hnd]
  refine ⟨rfl, ?_, ?_⟩
  · simp [getKey_putKey]
  · rw [key_exists_putKey]
    by_cases hdc : cfg.checkpoint_dir = get_checkpoint_path cfg "checkpoint" name path
    · simp [hdc]
    · by_cases hdir : key_exists st cfg.checkpoint_dir
      · simp [hdc, hdir]
      · simp [hdc, hdir, key_exists_putKey]

/-- C9 witness: the amended marker-and-copy behaviour at a concrete
notebook. -/
theorem C9_create_checkpoint_marker_witness :
    (getKey stNb (_get_os_path cfgA (some "n.ipynb") "p") = some ⟨"OLD", 7⟩
     ∧ cfgA.checkpoint_dir ≠ _get_os_path cfgA (some "n.ipynb") "p")
    ∧ getKey (create_checkpoint cfgA noFail stNb "n.ipynb" "p").1
        (get_checkpoint_path cfgA "checkpoint" "n.ipynb" "p") = some ⟨"OLD", 0⟩ :=
  ⟨⟨by decide, by decide⟩,
   (C9_create_checkpoint_marker cfgA noFail stNb "n.ipynb" "p" ⟨"OLD", 7⟩
     (by decide) (by decide) (by decide) (by decide)).2.1⟩

/-! ## Claim C5 -/

/-- C5: `save_notebook` creates a checkpoint before writing the new content
exactly when a document already exists at the ref and has no checkpoint:
after save on a pre-existing checkpoint-less document exactly one
checkpoint exists and it holds the prior stored bytes; after a first save
(document absent, no stale checkpoint key) no checkpoint exists; and when a
checkpoint already exists, save leaves the checkpoint key unchanged. -/
theorem C5_save_checkpoint_invariant (cfg : Config) (ext : Ext α) (st : Store)
    (model : SaveModel α) (name path : String) (c : α)
    (h1 : model.content = some c) (h2 : model.name = none) (h3 : model.path = none)
    (h4 : cfg.save_script = false)
    (h5 : get_checkpoint_path cfg "checkpoint" name (pyStrip path '/') ≠
      _get_os_path cfg (some name) (pyStrip path '/'))
    (h6 : cfg.checkpoint_dir ≠ _get_os_path cfg (some name) (pyStrip path '/')) :
    (∀ e, getKey st (_get_os_path cfg (some name) (pyStrip path '/')) = some e →
      key_exists st (get_checkpoint_path cfg "checkpoint" name (pyStrip path '/')) = false →
      isOk (save_notebook cfg ext noFail st model name path).2 = true
      ∧ getKey (save_notebook cfg ext noFail st model name path).1
          (get_checkpoint_path cfg "checkpoint" name (pyStrip path '/')) = some ⟨e.contents, 0⟩
      ∧ list_checkpoints cfg (save_notebook cfg ext noFail st model name path).1
          name (pyStrip path '/') = some [⟨"checkpoint", 0⟩])
    ∧ (key_exists st (_get_os_path cfg (some name) (pyStrip path '/')) = false →
      key_exists st (get_checkpoint_path cfg "checkpoint" name (pyStrip path '/')) = false →
      key_exists (save_notebook cfg ext noFail st model name path).1
        (get_checkpoint_path cfg "checkpoint" name (pyStrip path '/')) = false
      ∧ list_checkpoints cfg (save_notebook cfg ext noFail st model name path).1
          name (pyStrip path '/') = some []
      ∧ isOk (save_notebook cfg ext noFail st model name path).2 = true)
    ∧ (key_exists st (_get_os_path cfg (some name) (pyStrip path '/')) = true →
      key_exists st (get_checkpoint_path cfg "checkpoint" name (pyStrip path '/')) = true →
      getKey (save_notebook cfg ext noFail st model name path).1
        (get_checkpoint_path cfg "checkpoint" name (pyStrip path '/')) =
        getKey st (get_checkpoint_path cfg "checkpoint" name (pyStrip path '/'))) := by
  refine ⟨?_, ?_, ?_⟩
  · intro e hsrc hcp
    have hex : notebook_exists cfg st name (pyStrip path '/') = true := by
      unfold notebook_exists key_exists
      rw [hsrc]
      rfl
    have hlc : list_checkpoints cfg st name (pyStrip path '/') = some [] := by
      unfold list_checkpoints
      simp [hcp]
    have hcc := create_checkpoint_success cfg noFail st name (pyStrip path '/') e hsrc rfl rfl h6
    have hsave : save_notebook cfg ext noFail st model name path =
        (putKey (putKey (if key_exists st cfg.checkpoint_dir then st
              else putKey st cfg.checkpoint_dir ⟨"", 0⟩)
            (get_checkpoint_path cfg "checkpoint" name (pyStrip path '/')) ⟨e.contents, 0⟩)
          (_get_os_path cfg (some name) (pyStrip path '/'))
          ⟨ext.writes_json (ext.clear_metadata_name (ext.check_and_sign (ext.to_notebook_json c))), 0⟩,
         .ok ⟨name, pyStrip path '/', 0, 0, "notebook", none⟩) := by
      unfold save_notebook
      simp only [h1, h2, h3, hex, hlc, hcc, h4, Option.getD_none, ne_eq, not_true_eq_false,
        or_self, if_false, List.isEmpty_nil, if_true, ite_false, ite_true]
      unfold new_key_from_string get_notebook notebook_exists
      simp [noFail, key_exists, getKey_putKey]
    refine ⟨?_, ?_, ?_⟩
    · rw [hsave]
      rfl
    · rw [hsave, getKey_putKey, if_neg h5, getKey_putKey, if_pos rfl]
    · unfold list_checkpoints get_checkpoint_model
      rw [hsave]
      simp [key_exists, getKey_putKey, h5]
  · intro hex0 hcp
    have hexF : notebook_exists cfg st name (pyStrip path '/') = false := by
      unfold notebook_exists
      exact hex0
    have hsave : save_notebook cfg ext noFail st model name path =
        (putKey st (_get_os_path cfg (some name) (pyStrip path '/'))
          ⟨ext.writes_json (ext.clear_metadata_name (ext.check_and_sign (ext.to_notebook_json c))), 0⟩,
         .ok ⟨name, pyStrip path '/', 0, 0, "notebook", none⟩) := by
      unfold save_notebook
      simp only [h1, h2, h3, hexF, h4, Option.getD_none, ne_eq, not_true_eq_false,
        or_self, if_false, ite_false, ite_true, Bool.false_eq_true]
      unfold new_key_from_string get_notebook notebook_exists
      simp [noFail, key_exists, getKey_putKey]
    refine ⟨?_, ?_, ?_⟩
    · rw [hsave, key_exists_putKey, if_neg h5]
      exact hcp
    · unfold list_checkpoints
      rw [hsave]
      simp [key_exists_putKey, h5, hcp]
    · rw [hsave]
      rfl
  · intro hex1 hcp
    obtain ⟨e', he'⟩ : ∃ e',
        getKey st (get_checkpoint_path cfg "checkpoint" name (pyStrip path '/')) = some e' := by
      rw [key_exists_eq_isSome_getKey] at hcp
      cases hg : getKey st (get_checkpoint_path cfg "checkpoint" name (pyStrip path '/')) with
      | none => rw [hg] at hcp; simp at hcp
      | some e' => exact ⟨e', rfl⟩
    have hexT : notebook_exists cfg st name (pyStrip path '/') = true := by
      unfold notebook_exists
      exact hex1
    have hlc : list_checkpoints cfg st name (pyStrip path '/') = some [⟨"checkpoint", e'.mtime⟩] := by
      unfold list_checkpoints get_checkpoint_model
      simp [hcp, he']
    have hsave : save_notebook cfg ext noFail st model name path =
        (putKey st (_get_os_path cfg (some name) (pyStrip path '/'))
          ⟨ext.writes_json (ext.clear_metadata_name (ext.check_and_sign (ext.to_notebook_json c))), 0⟩,
         .ok ⟨name, pyStrip path '/', 0, 0, "notebook", none⟩) := by
      unfold save_notebook
      simp only [h1, h2, h3, hexT, hlc, h4, Option.getD_none, ne_eq, not_true_eq_false,
        or_self, if_false, List.isEmpty_cons, if_true, ite_false, ite_true]
      unfold new_key_from_string get_notebook notebook_exists
      simp [noFail, key_exists, getKey_putKey]
    rw [hsave, getKey_putKey, if_neg h5]

/-- C5 witness: the three save scenarios at concrete stores — pre-existing
checkpoint-less document, first save, and pre-existing checkpoint. -/
theorem C5_save_checkpoint_invariant_witness :
    (getKey stNb (_get_os_path cfgA (some "n.ipynb") (pyStrip "p" '/')) = some ⟨"OLD", 7⟩
     ∧ getKey (save_notebook cfgA extS noFail stNb mdlNew "n.ipynb" "p").1
        (get_checkpoint_path cfgA "checkpoint" "n.ipynb" (pyStrip "p" '/')) = some ⟨"OLD", 0⟩)
    ∧ key_exists (save_notebook cfgA extS noFail [] mdlNew "n.ipynb" "p").1
        (get_checkpoint_path cfgA "checkpoint" "n.ipynb" (pyStrip "p" '/')) = false
    ∧ getKey (save_notebook cfgA extS noFail stNbCp mdlNew "n.ipynb" "p").1
        (get_checkpoint_path cfgA "checkpoint" "n.ipynb" (pyStrip "p" '/')) =
      getKey stNbCp (get_checkpoint_path cfgA "checkpoint" "n.ipynb" (pyStrip "p" '/')) :=
  ⟨⟨by decide,
    ((C5_save_checkpoint_invariant cfgA extS stNb mdlNew "n.ipynb" "p" "NEW"
      rfl rfl rfl rfl (by decide) (by decide)).1 ⟨"OLD", 7⟩ (by decide) (by decide)).2.1⟩,
   ((C5_save_checkpoint_invariant cfgA extS [] mdlNew "n.ipynb" "p" "NEW"
      rfl rfl rfl rfl (by decide) (by decide)).2.1 (by decide) (by decide)).1,
   (C5_save_checkpoint_invariant cfgA extS stNbCp mdlNew "n.ipynb" "p" "NEW"
      rfl rfl rfl rfl (by decide) (by decide)).2.2 (by decide) (by decide)⟩

/-! ## Claim C1 -/

/-- C1 (counterexample): with companion-script export enabled, a failure
while writing the companion `.py` script during save raises HTTPError 400
to the caller even though the primary write has already committed — the
auxiliary failure is not swallowed and the save is not reported
successful. -/
theorem C1_counterexample :
    errOf (save_notebook cfgScript extS (failPutOn "DropBox/u/p/n.py") []
        mdlNew "n.ipynb" "p").2 = some (.http 400)
    ∧ getKey (save_notebook cfgScript extS (failPutOn "DropBox/u/p/n.py") []
        mdlNew "n.ipynb" "p").1 "DropBox/u/p/n.ipynb" = some ⟨"NEW", 0⟩ := by
  exact ⟨by rfl, by rfl⟩

/-- C1 (amended): auxiliary-artifact failures are NOT swallowed.  A failure
writing the companion `.py` script during save is logged and re-raised as
HTTPError 400 after the primary write has committed (the primary write is
not rolled back, but the operation is reported as failed); a failure moving
the checkpoint copy during rename propagates an error to the caller after
the primary move has committed (the primary remains at the new key, the old
key deleted). -/
theorem C1_aux_failures_raise (cfg : Config) (ext : Ext α) (oracle : Oracle) (st : Store)
    (model : SaveModel α) (name path : String) (c : α)
    (cfg2 : Config) (oracle2 : Oracle) (st2 : Store)
    (old_name old_path new_name new_path : String) (e2 : Entry) :
    ((model.content = some c → model.name = none → model.path = none →
      cfg.save_script = true →
      notebook_exists cfg st name (pyStrip path '/') = false →
      oracle.putFail (_get_os_path cfg (some name) (pyStrip path '/')) = false →
      oracle.putFail
        (pySplitextStem (_get_os_path cfg (some name) (pyStrip path '/')) ++ ".py") = true →
      save_notebook cfg ext oracle st model name path =
        (putKey st (_get_os_path cfg (some name) (pyStrip path '/'))
          ⟨ext.writes_json (ext.clear_metadata_name (ext.check_and_sign (ext.to_notebook_json c))), 0⟩,
         .error (.http 400))))
    ∧ (¬ (new_name = old_name ∧ new_path = old_path) →
      cfg2.save_script = false →
      key_exists st2 (_get_os_path cfg2 (some new_name) new_path) = false →
      getKey st2 (_get_os_path cfg2 (some old_name) old_path) = some e2 →
      pyStrip (_get_os_path cfg2 (some new_name) new_path) '/' =
        _get_os_path cfg2 (some new_name) new_path →
      pyStrip (_get_os_path cfg2 (some old_name) old_path) '/' =
        _get_os_path cfg2 (some old_name) old_path →
      oracle2.copyFail (_get_os_path cfg2 (some new_name) new_path) = false →
      pyStrip (get_checkpoint_path cfg2 "checkpoint" old_name old_path) '/' =
        get_checkpoint_path cfg2 "checkpoint" old_name old_path →
      pyStrip (get_checkpoint_path cfg2 "checkpoint" new_name new_path) '/' =
        get_checkpoint_path cfg2 "checkpoint" new_name new_path →
      key_exists st2 (get_checkpoint_path cfg2 "checkpoint" old_name old_path) = true →
      get_checkpoint_path cfg2 "checkpoint" old_name old_path ≠
        _get_os_path cfg2 (some new_name) new_path →
      get_checkpoint_path cfg2 "checkpoint" old_name old_path ≠
        _get_os_path cfg2 (some old_name) old_path →
      key_exists st2 (get_checkpoint_path cfg2 "checkpoint" new_name new_path) = false →
      get_checkpoint_path cfg2 "checkpoint" new_name new_path ≠
        _get_os_path cfg2 (some new_name) new_path →
      get_checkpoint_path cfg2 "checkpoint" new_name new_path ≠
        _get_os_path cfg2 (some old_name) old_path →
      oracle2.copyFail (get_checkpoint_path cfg2 "checkpoint" new_name new_path) = true →
      rename_notebook cfg2 oracle2 st2 old_name old_path new_name new_path =
        (deleteKey (putKey st2 (_get_os_path cfg2 (some new_name) new_path) ⟨e2.contents, 0⟩)
          (_get_os_path cfg2 (some old_name) old_path), .error .s3error)
      ∧ getKey (deleteKey (putKey st2 (_get_os_path cfg2 (some new_name) new_path) ⟨e2.contents, 0⟩)
          (_get_os_path cfg2 (some old_name) old_path))
          (_get_os_path cfg2 (some new_name) new_path) = some ⟨e2.contents, 0⟩
      ∧ key_exists (deleteKey (putKey st2 (_get_os_path cfg2 (some new_name) new_path) ⟨e2.contents, 0⟩)
          (_get_os_path cfg2 (some old_name) old_path))
          (_get_os_path cfg2 (some old_name) old_path) = false) := by
  constructor
  · intro s1 s2 s3 s4 s5 s6 s7
    unfold save_notebook
    simp only [s1, s2, s3, s5, Option.getD_none, ne_eq, not_true_eq_false, or_self,
      ite_false, ite_true, if_false, if_true, Bool.false_eq_true]
    unfold new_key_from_string
    simp only [s6, s4, s7, Bool.false_eq_true, if_false, ite_false, if_true, ite_true]
  · intro r1 r2 r3 r4 r5 r6 r7 r8 r9 r10 r11 r12 r13 r14 r15 r16
    have hno : _get_os_path cfg2 (some new_name) new_path ≠
        _get_os_path cfg2 (some old_name) old_path := by
      intro h
      rw [h, key_exists_eq_isSome_getKey, r4] at r3
      simp at r3
    obtain ⟨e3, he3⟩ : ∃ e3,
        getKey st2 (get_checkpoint_path cfg2 "checkpoint" old_name old_path) = some e3 := by
      rw [key_exists_eq_isSome_getKey] at r10
      cases hg : getKey st2 (get_checkpoint_path cfg2 "checkpoint" old_name old_path) with
      | none => rw [hg] at r10; simp at r10
      | some e3 => exact ⟨e3, rfl⟩
    have hmove : move_key oracle2 st2 (_get_os_path cfg2 (some new_name) new_path)
        (_get_os_path cfg2 (some old_name) old_path) =
        .ok (deleteKey (putKey st2 (_get_os_path cfg2 (some new_name) new_path) ⟨e2.contents, 0⟩)
          (_get_os_path cfg2 (some old_name) old_path)) := by
      unfold move_key copy_key
      rw [r5, r6]
      simp [r3, r4, r7]
    have hoc1 : getKey (deleteKey (putKey st2 (_get_os_path cfg2 (some new_name) new_path)
          ⟨e2.contents, 0⟩) (_get_os_path cfg2 (some old_name) old_path))
        (get_checkpoint_path cfg2 "checkpoint" old_name old_path) = some e3 := by
      rw [getKey_deleteKey, if_neg r12, getKey_putKey, if_neg r11]
      exact he3
    have hnc1 : key_exists (deleteKey (putKey st2 (_get_os_path cfg2 (some new_name) new_path)
          ⟨e2.contents, 0⟩) (_get_os_path cfg2 (some old_name) old_path))
        (get_checkpoint_path cfg2 "checkpoint" new_name new_path) = false := by
      rw [key_exists_deleteKey, if_neg r15, key_exists_putKey, if_neg r14]
      exact r13
    have hlc1 : list_checkpoints cfg2 (deleteKey (putKey st2
          (_get_os_path cfg2 (some new_name) new_path) ⟨e2.contents, 0⟩)
          (_get_os_path cfg2 (some old_name) old_path)) old_name old_path =
        some [⟨"checkpoint", e3.mtime⟩] := by
      unfold list_checkpoints get_checkpoint_model
      simp [key_exists, hoc1]
    have hmcp : move_key oracle2 (deleteKey (putKey st2
          (_get_os_path cfg2 (some new_name) new_path) ⟨e2.contents, 0⟩)
          (_get_os_path cfg2 (some old_name) old_path))
        (pyStrip (get_checkpoint_path cfg2 "checkpoint" new_name new_path) '/')
        (pyStrip (get_checkpoint_path cfg2 "checkpoint" old_name old_path) '/') =
        .error .s3error := by
      rw [r8, r9]
      unfold move_key copy_key
      rw [r9, r8]
      simp [hnc1, hoc1, r16]
    refine ⟨?_, ?_, ?_⟩
    · unfold rename_notebook
      rw [if_neg r1]
      rw [if_neg (by rw [r3]; simp)]
      rw [if_neg (by rw [r2]; simp)]
      rw [hmove]
      dsimp only
      rw [hlc1]
      dsimp only
      unfold move_cps
      dsimp only
      rw [hmcp]
    · rw [getKey_deleteKey, if_neg hno, getKey_putKey, if_pos rfl]
    · rw [key_exists_deleteKey, if_pos rfl]

/-- C1 witness: the amended behaviour at concrete inputs — a save whose
script write fails after the primary commits, and a rename whose checkpoint
move fails after the primary move commits. -/
theorem C1_aux_failures_raise_witness :
    save_notebook cfgScript extS (failPutOn "DropBox/u/p/n.py") [] mdlNew "n.ipynb" "p" =
      (putKey [] (_get_os_path cfgScript (some "n.ipynb") (pyStrip "p" '/'))
        ⟨extS.writes_json (extS.clear_metadata_name (extS.check_and_sign
          (extS.to_notebook_json "NEW"))), 0⟩,
       .error (.http 400))
    ∧ rename_notebook cfgA (failCopyOn "DropBox/u/p/.ipynb_checkpoints/m-checkpoint.ipynb")
        stNbCp "n.ipynb" "p" "m.ipynb" "p" =
      (deleteKey (putKey stNbCp (_get_os_path cfgA (some "m.ipynb") "p") ⟨"OLD", 0⟩)
        (_get_os_path cfgA (some "n.ipynb") "p"), .error .s3error) :=
  ⟨(C1_aux_failures_raise cfgScript extS (failPutOn "DropBox/u/p/n.py") [] mdlNew
      "n.ipynb" "p" "NEW" cfgA (failCopyOn "DropBox/u/p/.ipynb_checkpoints/m-checkpoint.ipynb")
      stNbCp "n.ipynb" "p" "m.ipynb" "p" ⟨"OLD", 7⟩).1
    rfl rfl rfl rfl (by decide) (by decide) (by decide),
   ((C1_aux_failures_raise cfgScript extS (failPutOn "DropBox/u/p/n.py") [] mdlNew
      "n.ipynb" "p" "NEW" cfgA (failCopyOn "DropBox/u/p/.ipynb_checkpoints/m-checkpoint.ipynb")
      stNbCp "n.ipynb" "p" "m.ipynb" "p" ⟨"OLD", 7⟩).2
    (by decide) (by decide) (by decide) (by decide) (by decide) (by decide) (by decide)
    (by decide) (by decide) (by decide) (by decide) (by decide) (by decide) (by decide)
    (by decide) (by decide)).1⟩

end S3NB
